import Mathlib

set_option maxRecDepth 1000000

/-!
Verification development for the content-generator repository.

The Python sources are shallowly embedded below:
* pure string manipulation is modelled on `List Char` (structural
  recursion, so every definition evaluates inside the kernel);
* network calls (`requests.get`, `wikipedia.page`) are modelled by an
  explicit oracle `NetEnv`; a `none` answer models the call raising;
* `random.choice` is modelled by an explicit stream of draws (`Rng`);
  `random.sample` / `random.shuffle` results are passed as explicit
  parameters (`Samples`, a `shuffle` function), since the call sites
  quantify over them anyway;
* Python `float` arithmetic in `estimate_duration` and `format_number`
  is modelled exactly: `rndPair` implements IEEE-754 binary64
  round-to-nearest-even on exact rationals represented as numerator /
  denominator pairs of naturals (overflow and subnormals are out of
  range for every reachable input);
* sqlite is modelled as a list of rows plus the UNIQUE(title)
  constraint of the `videos` table created in `main.py`.
-/

/-! ### Character and string helpers (Python semantics, kernel-executable) -/

/-- Left brace character, written via its code point. -/
def lbraceChar : Char := Char.ofNat 123

/-- Right brace character, written via its code point. -/
def rbraceChar : Char := Char.ofNat 125

/-- ASCII lower-casing of one character, as `str.lower` does on the
ASCII range (every string reaching `.lower()` in this program is ASCII). -/
def asciiLower (c : Char) : Char :=
  if 65 ≤ c.toNat ∧ c.toNat ≤ 90 then Char.ofNat (c.toNat + 32) else c

/-- ASCII upper-casing of one character, as `str.upper` does on the
ASCII range. -/
def asciiUpper (c : Char) : Char :=
  if 97 ≤ c.toNat ∧ c.toNat ≤ 122 then Char.ofNat (c.toNat - 32) else c

/-- Python `s.lower()`. -/
def pyLower (s : String) : String := String.mk (s.toList.map asciiLower)

/-- Python `s.upper()`. -/
def pyUpper (s : String) : String := String.mk (s.toList.map asciiUpper)

/-- Helper for `pySplitDot`: split a character list at `'.'`,
accumulating the current chunk in reverse. -/
def splitDotAux : List Char → List Char → List (List Char)
  | [], acc => [acc.reverse]
  | c :: rest, acc =>
    if c = '.' then acc.reverse :: splitDotAux rest []
    else splitDotAux rest (c :: acc)

/-- Python `text.split('.')`: e.g. `"".split('.') == [""]`,
`"a.b.".split('.') == ["a","b",""]`. -/
def pySplitDot (s : String) : List String :=
  (splitDotAux s.toList []).map String.mk

/-- Python `s.strip()`: drop whitespace from both ends. -/
def pyStrip (s : String) : String :=
  String.mk (((s.toList.dropWhile Char.isWhitespace).reverse.dropWhile
    Char.isWhitespace).reverse)

/-- Python `len(s)` (number of characters). -/
def pyLen (s : String) : Nat := s.toList.length

/-- Python `s[:n]` (first `n` characters). -/
def pyTakeStr (s : String) (n : Nat) : String := String.mk (s.toList.take n)

/-- Python substring membership `needle in hay` on character lists. -/
def containsSubList (needle : List Char) : List Char → Bool
  | [] => needle.isEmpty
  | c :: rest => needle.isPrefixOf (c :: rest) || containsSubList needle rest

/-- Python substring membership `needle in hay` on strings. -/
def strContains (hay needle : String) : Bool :=
  containsSubList needle.toList hay.toList

/-- Helper for `wordCount`: Python `s.split()` (split on whitespace runs,
no empty words), returning the list of words. -/
def pyWordsAux : List Char → List Char → List (List Char)
  | [], acc => if acc.isEmpty then [] else [acc.reverse]
  | c :: rest, acc =>
    if c.isWhitespace then
      if acc.isEmpty then pyWordsAux rest []
      else acc.reverse :: pyWordsAux rest []
    else pyWordsAux rest (c :: acc)

/-- Number of whitespace-separated words of a string:
`len(s.split())` in Python. -/
def wordCount (s : String) : Nat := (pyWordsAux s.toList []).length

/-- Helper for `pyFormat`: substitute positional arguments for the
placeholder pairs, left to right; `none` models the `IndexError` raised
by `str.format` when placeholders outnumber arguments.  (The templates
of this program contain no numbered, named or escaped placeholders, so
only the plain pair form is modelled.) -/
def formatAux (args : List (List Char)) : List Char → Option (List Char)
  | [] => some []
  | [c] => some [c]
  | c1 :: c2 :: rest =>
    if c1 = lbraceChar ∧ c2 = rbraceChar then
      match args with
      | [] => none
      | a :: more => (formatAux more rest).map (fun r => a ++ r)
    else (formatAux args (c2 :: rest)).map (fun r => c1 :: r)

/-- Python `template.format(*args)` (plain `\x7b\x7d` placeholders only;
`none` models `IndexError`). -/
def pyFormat (template : String) (args : List String) : Option String :=
  (formatAux (args.map String.toList) template.toList).map String.mk

/-- Total version of `pyFormat`; every call site of this program passes
one argument to a template holding at most one placeholder, so the
`IndexError` default is unreachable there. -/
def pyFormatD (template : String) (args : List String) : String :=
  (pyFormat template args).getD ""

/-- Decimal rendering of a natural number (`str(n)` in Python), with the
first argument as structural fuel. -/
def natToStrAux : Nat → Nat → List Char → List Char
  | 0, _, acc => acc
  | f + 1, n, acc =>
    let c := Char.ofNat (48 + n % 10)
    if n < 10 then c :: acc else natToStrAux f (n / 10) (c :: acc)

/-- Python `str(n)` for a natural number. -/
def natToStr (n : Nat) : String := String.mk (natToStrAux (n + 1) n [])

/-- Python `text[:n] + "..." if len(text) > n else text`. -/
def truncateEllipsis (s : String) (n : Nat) : String :=
  if n < pyLen s then pyTakeStr s n ++ "..." else s

/-! ### Exact model of binary64 arithmetic on `Nat` pairs

A nonnegative value is carried as a numerator/denominator pair
`(a, b)` meaning `a / b` (not necessarily reduced, `b > 0` at every
call site).  `rndPair` rounds such a value to the nearest binary64
float (ties to even) and returns the exact value of that float, again
as a pair.  All recursion is structural so the kernel can evaluate. -/

/-- Fuelled base-2 logarithm (`Nat.log2` is well-founded recursive and
does not reduce in the kernel, so a structural clone is used). -/
def log2Fuel : Nat → Nat → Nat
  | 0, _ => 0
  | f + 1, n => if 2 ≤ n then log2Fuel f (n / 2) + 1 else 0

/-- Base-2 logarithm, rounded down (`natLog2 0 = 0`). -/
def natLog2 (n : Nat) : Nat := log2Fuel n n

/-- The integer `e` with `2 ^ e ≤ a / b < 2 ^ (e + 1)`, for `a, b > 0`. -/
def floorLog2N (a b : Nat) : Int :=
  let fn := natLog2 a
  let fd := natLog2 b
  if fd ≤ fn then
    (if b * 2 ^ (fn - fd) ≤ a then ((fn - fd : Nat) : Int)
     else ((fn - fd : Nat) : Int) - 1)
  else
    (if b ≤ a * 2 ^ (fd - fn) then -((fd - fn : Nat) : Int)
     else -(((fd - fn : Nat) : Int)) - 1)

/-- Round the value `A / B` to the nearest integer, ties to even. -/
def rheN (A B : Nat) : Nat :=
  let d := A / B
  let r := A % B
  if 2 * r < B then d
  else if B < 2 * r then d + 1
  else if d % 2 = 0 then d else d + 1

/-- Numerator of the 53-bit mantissa scaling of `a / b`:
the pair `(mantA, mantB)` carries `(a / b) * 2 ^ (52 - e)`. -/
def mantA (a b : Nat) : Nat :=
  if 0 ≤ 52 - floorLog2N a b then a * 2 ^ (52 - floorLog2N a b).toNat else a

/-- Denominator of the 53-bit mantissa scaling of `a / b`. -/
def mantB (a b : Nat) : Nat :=
  if 0 ≤ 52 - floorLog2N a b then b else b * 2 ^ (-(52 - floorLog2N a b)).toNat

/-- Exact value of the binary64 float nearest to `a / b` (round to
nearest, ties to even), as a numerator/denominator pair.  `a / b = 0`
maps to `0`; the reachable magnitudes are far from overflow and
subnormal range, so neither is modelled. -/
def rndPair (a b : Nat) : Nat × Nat :=
  if a = 0 then (0, 1)
  else if 0 ≤ (52 - floorLog2N a b : Int) then
    (rheN (mantA a b) (mantB a b), 2 ^ (52 - floorLog2N a b).toNat)
  else
    (rheN (mantA a b) (mantB a b) * 2 ^ (-(52 - floorLog2N a b)).toNat, 1)

/-- Exact value of Python `int((wc / 150) * 60)`: binary64 division,
binary64 multiplication, truncation toward zero (= floor, value ≥ 0). -/
def float_duration (wc : Nat) : Nat :=
  let p1 := rndPair wc 150
  let p2 := rndPair (p1.1 * 60) p1.2
  p2.1 / p2.2

/-- Exact value of Python `f"{num/d:.1f}"` for naturals `num`, `d > 0`:
binary64 division, then decimal formatting of the double with one digit
after the point (round to nearest, ties to even). -/
def formatOneDecimal (num d : Nat) : String :=
  let p := rndPair num d
  let t := rheN (p.1 * 10) p.2
  natToStr (t / 10) ++ "." ++ natToStr (t % 10)

/-! ### Shared data model -/

/-- A value stored in a fact record: the Python records hold strings,
numbers and lists of strings. -/
inductive FieldVal where
  | s (v : String)
  | n (v : Nat)
  | ls (v : List String)
deriving DecidableEq, Repr

/-- A fact record: an open mapping from field name to value, exactly as
the Python `dict` records (insertion order preserved). -/
abbrev FactRecord := List (String × FieldVal)

/-- Python `record[key]` / `record.get(key)`. -/
def recordGet (r : FactRecord) (k : String) : Option FieldVal := r.lookup k

/-- Python `str(value)` of a field value as used in f-strings. -/
def fieldStr : FieldVal → String
  | .s v => v
  | .n v => natToStr v
  | .ls v => String.intercalate ", " v

/-- Python `record.get(key, default)` rendered as a string. -/
def strGetD (r : FactRecord) (k : String) (dflt : String) : String :=
  match recordGet r k with
  | some v => fieldStr v
  | none => dflt

/-- Python `record.get(key, 0)` for a numeric field (the collector only
ever stores numbers under these keys). -/
def natGetD (r : FactRecord) (k : String) (dflt : Nat) : Nat :=
  match recordGet r k with
  | some (.n v) => v
  | some (.s _) => dflt
  | some (.ls _) => dflt
  | none => dflt

/-- The category bundle every collector method returns:
`{'category': ..., 'data': [...], 'metadata': {...}}`. -/
structure FactBundle where
  category : String
  data : List FactRecord
  metadata : List (String × FieldVal)
deriving DecidableEq, Repr

/-! ### Randomness model -/

/-- The Mersenne-Twister draws consumed by `random.choice`, modelled as
an explicit stream of naturals (an exhausted stream keeps yielding 0;
every theorem quantifies over the stream). -/
structure Rng where
  seq : List Nat
deriving DecidableEq, Repr

/-- Pop one draw. -/
def Rng.next : Rng → Nat × Rng
  | ⟨[]⟩ => (0, ⟨[]⟩)
  | ⟨n :: r⟩ => (n, ⟨r⟩)

/-- Python `random.choice(l)` for nonempty `l`: one draw selects the
index (`random.choice` on `[]` raises, which no reachable call does). -/
def randChoice {α : Type} (g : Rng) (l : List α) (dflt : α) : α × Rng :=
  let p := g.next
  (l.getD (p.1 % l.length) dflt, p.2)

/-! ### DataCollector (src/src/data_collector.py) -/

/-- A fetched Wikipedia page (`wikipedia.page(topic)` result). -/
structure WikiPage where
  summary : String
  content : String
  url : String
deriving DecidableEq, Repr

/-- The parsed JSON payload of the NASA APOD endpoint, an open string
mapping like a Python dict. -/
abbrev ApodPayload := List (String × String)

/-- Python `apod_data.get(key, '')`. -/
def apodGet (p : ApodPayload) (k : String) : String := (p.lookup k).getD ""

/-- One country object of the REST Countries payload; `Option` fields
model possibly-missing JSON keys, list fields model the already
extracted `list(...)` values. -/
structure Country where
  nameCommon : Option String
  capital : List String
  population : Nat
  area : Nat
  region : Option String
  languages : List String
  currencies : List String
  flagPng : String
deriving DecidableEq, Repr

/-- The network oracle: `none` models the underlying call raising. -/
structure NetEnv where
  countriesAll : Option (List Country)
  wikipediaPage : String → Option WikiPage
  nasaApod : Option (Nat × ApodPayload)

/-- The outcomes of the `random.sample` calls, passed explicitly. -/
structure Samples where
  geo : List Country
  hist : List String
  sci : List String
  space : List String
  tech : List String
  psych : List String
  trend : List String

/-- The fixed keyword list of `extract_interesting_fact`. -/
def interesting_keywords : List String :=
  ["first", "largest", "smallest", "only", "never", "most", "least",
   "discovered", "invented"]

/-- Does a sentence contain one of the keywords
(`any(keyword in sentence.lower() for keyword in interesting_keywords)`)? -/
def keywordHit (sentence : String) : Bool :=
  interesting_keywords.any (fun k => strContains (pyLower sentence) k)

/-- The length test `20 < len(sentence.strip()) < 150` of
`extract_interesting_fact`. -/
def inLenWindow (sentence : String) : Bool :=
  20 < pyLen (pyStrip sentence) && pyLen (pyStrip sentence) < 150

/-- First loop of `extract_interesting_fact`: first sentence containing
a keyword whose stripped length passes the window test. -/
def firstKeywordFact : List String → Option String
  | [] => none
  | s :: rest =>
    if keywordHit s then
      if inLenWindow s then some (pyStrip s) else firstKeywordFact rest
    else firstKeywordFact rest

/-- Second loop of `extract_interesting_fact`: first sentence whose
stripped length passes the window test. -/
def firstWindowFact : List String → Option String
  | [] => none
  | s :: rest =>
    if inLenWindow s then some (pyStrip s) else firstWindowFact rest

/-- `DataCollector.extract_interesting_fact` translated line by line. -/
def extract_interesting_fact (text : String) : String :=
  let sentences := pySplitDot text
  match firstKeywordFact sentences with
  | some s => s
  | none =>
    match firstWindowFact sentences with
    | some s => s
    | none => if 150 < pyLen text then pyTakeStr text 150 ++ "..." else text

/-- Python word character (`\w` of the `re` module, ASCII range). -/
def isWordChar (c : Char) : Bool := c.isAlphanum || c = '_'

/-- Attempt the regex `\b(19|20)\d{2}\b` at the current position
(`prev` is the preceding character, if any); on success return the
captured group, which is `"19"` or `"20"` — `re.findall` with one group
returns the group, not the full match. -/
def yearMatchAt (prev : Option Char) : List Char → Option String
  | c1 :: c2 :: c3 :: c4 :: rest =>
    if (match prev with | none => true | some p => !isWordChar p)
        && ((c1 = '1' && c2 = '9') || (c1 = '2' && c2 = '0'))
        && c3.isDigit && c4.isDigit
        && (match rest with | [] => true | r :: _ => !isWordChar r) then
      some (String.mk [c1, c2])
    else none
  | _ => none

/-- Scan for the leftmost match of `\b(19|20)\d{2}\b`. -/
def findYearAux (prev : Option Char) : List Char → Option String
  | [] => none
  | c :: rest =>
    match yearMatchAt prev (c :: rest) with
    | some y => some y
    | none => findYearAux (some c) rest

/-- `DataCollector.extract_year_from_text`: `years[0] if years else
"Unknown"` where `years = re.findall(r'\b(19|20)\d{2}\b', text)`. -/
def extract_year_from_text (text : String) : String :=
  (findYearAux none text.toList).getD "Unknown"

/-- `DataCollector.generate_importance_statement`. -/
def generate_importance_statement (g : Rng) (topic : String) : String × Rng :=
  randChoice g
    [topic ++ " revolutionized our understanding of the natural world.",
     "The discovery of " ++ topic ++ " changed the course of scientific history.",
     topic ++ " remains one of the most important concepts in modern science.",
     "Understanding " ++ topic ++ " is crucial for advancing human knowledge."] ""

/-- `DataCollector.generate_tech_impact_statement`. -/
def generate_tech_impact_statement (g : Rng) (topic : String) : String × Rng :=
  randChoice g
    [topic ++ " is revolutionizing how we live and work.",
     "The impact of " ++ topic ++ " on society is profound and far-reaching.",
     topic ++ " represents a major breakthrough in technological advancement.",
     "The development of " ++ topic ++ " marks a new era in human innovation."] ""

/-- `DataCollector.generate_psychology_impact`. -/
def generate_psychology_impact (g : Rng) (topic : String) : String × Rng :=
  randChoice g
    ["Understanding " ++ topic ++ " helps us improve mental health and well-being.",
     "Research in " ++ topic ++ " has transformed our understanding of human behavior.",
     topic ++ " provides crucial insights into human development and behavior.",
     "The study of " ++ topic ++ " continues to enhance our understanding of the mind."] ""

/-- The hard-coded topic list of `get_history_data`. -/
def historical_topics : List String :=
  ["Ancient Egypt", "Roman Empire", "World War II", "Renaissance",
   "Industrial Revolution", "Cold War", "Ancient Greece", "Viking Age",
   "Mongol Empire", "American Revolution"]

/-- The hard-coded topic list of `get_science_data`. -/
def science_topics : List String :=
  ["Quantum physics", "DNA", "Theory of relativity", "Evolution",
   "Photosynthesis", "Black holes", "Antibiotics", "Periodic table",
   "Genetics", "Climate change"]

/-- The hard-coded topic list of `get_space_data`. -/
def space_topics : List String :=
  ["Black hole", "Solar System", "Mars exploration", "International Space Station",
   "Hubble Space Telescope", "Space exploration", "Milky Way", "Supernova",
   "Exoplanet", "Dark matter"]

/-- The hard-coded topic list of `get_technology_data`. -/
def tech_topics : List String :=
  ["Artificial Intelligence", "Quantum Computing", "Blockchain",
   "Internet of Things", "5G technology", "Cloud computing",
   "Machine Learning", "Virtual Reality", "Robotics", "Cybersecurity"]

/-- The hard-coded topic list of `get_psychology_data`. -/
def psych_topics : List String :=
  ["Cognitive psychology", "Behavioral psychology", "Social psychology",
   "Developmental psychology", "Personality theory", "Mental health",
   "Psychological theories", "Human behavior", "Memory", "Emotions"]

/-- `DataCollector.get_fallback_geography_data` (3 records). -/
def get_fallback_geography_data : FactBundle :=
  { category := "geography",
    data :=
      [[("name", FieldVal.s "United States"),
        ("capital", FieldVal.s "Washington, D.C."),
        ("population", FieldVal.n 331002651),
        ("area", FieldVal.n 9833517),
        ("interesting_fact", FieldVal.s "The United States is home to all of Earth\x27s five climate types.")],
       [("name", FieldVal.s "China"),
        ("capital", FieldVal.s "Beijing"),
        ("population", FieldVal.n 1439323776),
        ("area", FieldVal.n 9596961),
        ("interesting_fact", FieldVal.s "The Great Wall of China is not visible from space with the naked eye.")],
       [("name", FieldVal.s "Brazil"),
        ("capital", FieldVal.s "BrasÃ­lia"),
        ("population", FieldVal.n 212559417),
        ("area", FieldVal.n 8515770),
        ("interesting_fact", FieldVal.s "Brazil contains about 60% of the Amazon Rainforest.")]],
    metadata :=
      [("total_countries", FieldVal.n 3),
       ("data_source", FieldVal.s "Fallback Data")] }

/-- `DataCollector.get_fallback_space_data` (2 records). -/
def get_fallback_space_data : FactBundle :=
  { category := "space",
    data :=
      [[("topic", FieldVal.s "Solar System"),
        ("summary", FieldVal.s "Our Solar System consists of eight planets orbiting around the Sun."),
        ("interesting_fact", FieldVal.s "If the Sun were as tall as a typical front door, Earth would be the size of a nickel.")],
       [("topic", FieldVal.s "Mars"),
        ("summary", FieldVal.s "Mars is often called the Red Planet due to its reddish appearance."),
        ("interesting_fact", FieldVal.s "Mars has the largest dust storms in our solar system.")]],
    metadata :=
      [("topics_covered", FieldVal.n 2),
       ("data_source", FieldVal.s "Fallback Data")] }

/-- `DataCollector.get_fallback_technology_data` (2 records). -/
def get_fallback_technology_data : FactBundle :=
  { category := "technology",
    data :=
      [[("topic", FieldVal.s "Artificial Intelligence"),
        ("summary", FieldVal.s "AI is the simulation of human intelligence by machines."),
        ("latest_developments", FieldVal.s "AI systems can now generate human-like text and images."),
        ("impact", FieldVal.s "AI is transforming industries from healthcare to transportation.")],
       [("topic", FieldVal.s "Quantum Computing"),
        ("summary", FieldVal.s "Quantum computers use quantum mechanics to process information."),
        ("latest_developments", FieldVal.s "Companies are developing quantum computers with increasing numbers of qubits."),
        ("impact", FieldVal.s "Quantum computing could revolutionize cryptography and drug discovery.")]],
    metadata :=
      [("topics_covered", FieldVal.n 2),
       ("data_source", FieldVal.s "Fallback Data")] }

/-- `DataCollector.get_fallback_psychology_data` (2 records). -/
def get_fallback_psychology_data : FactBundle :=
  { category := "psychology",
    data :=
      [[("topic", FieldVal.s "Cognitive Psychology"),
        ("summary", FieldVal.s "Cognitive psychology studies mental processes including thinking, learning, and memory."),
        ("key_concepts", FieldVal.s "Memory formation and retrieval are complex processes involving multiple brain regions."),
        ("significance", FieldVal.s "Understanding cognitive processes helps improve learning and decision-making.")],
       [("topic", FieldVal.s "Social Psychology"),
        ("summary", FieldVal.s "Social psychology examines how people\x27s thoughts and behaviors are influenced by others."),
        ("key_concepts", FieldVal.s "Group dynamics and social influence play crucial roles in human behavior."),
        ("significance", FieldVal.s "Social psychology insights help improve communication and relationships.")]],
    metadata :=
      [("topics_covered", FieldVal.n 2),
       ("data_source", FieldVal.s "Fallback Data")] }

/-- `DataCollector.get_fallback_trending_data` (2 records; present in the
source, reachable only if code outside the per-category calls raised). -/
def get_fallback_trending_data : FactBundle :=
  { category := "trending",
    data :=
      [[("topic", FieldVal.s "Climate Change"),
        ("summary", FieldVal.s "Global temperatures continue to rise due to human activities."),
        ("interesting_fact", FieldVal.s "The last decade was the warmest on record.")],
       [("topic", FieldVal.s "Space Exploration"),
        ("summary", FieldVal.s "Private companies are making space travel more accessible."),
        ("interesting_fact", FieldVal.s "Reusable rockets have significantly reduced the cost of space launches.")]],
    metadata :=
      [("topics_covered", FieldVal.n 2),
       ("data_source", FieldVal.s "Fallback Data")] }

/-- `DataCollector.get_country_interesting_fact`: the bare `except`
branch maps a failing `wikipedia.page` to the generic sentence. -/
def get_country_interesting_fact (net : NetEnv) (g : Rng) (country_name : String) :
    String × Rng :=
  match net.wikipediaPage country_name with
  | none => (country_name ++ " has unique geographical and cultural features.", g)
  | some page =>
    let sentences := pySplitDot page.summary
    let interesting_sentences :=
      (sentences.map pyStrip).filter (fun s => 50 < pyLen s && pyLen s < 200)
    if interesting_sentences.isEmpty then
      ("This country has a rich history and culture.", g)
    else randChoice g interesting_sentences ""

/-- The record built for one country in `get_geography_data`; note the
distinct defaults: the `name` field defaults to `"Unknown"`, while the
name handed to `get_country_interesting_fact` defaults to `''`. -/
def countryFactRecord (c : Country) (fact : String) : FactRecord :=
  [("name", FieldVal.s (c.nameCommon.getD "Unknown")),
   ("capital", FieldVal.s (match c.capital with | [] => "Unknown" | x :: _ => x)),
   ("population", FieldVal.n c.population),
   ("area", FieldVal.n c.area),
   ("region", FieldVal.s (c.region.getD "Unknown")),
   ("languages", FieldVal.ls c.languages),
   ("currencies", FieldVal.ls c.currencies),
   ("flag", FieldVal.s c.flagPng),
   ("interesting_fact", FieldVal.s fact)]

/-- The per-country loop of `get_geography_data`, threading the draws
consumed by `get_country_interesting_fact`. -/
def geoLoop (net : NetEnv) : List Country → Rng → List FactRecord × Rng
  | [], g => ([], g)
  | c :: rest, g =>
    let fg := get_country_interesting_fact net g (c.nameCommon.getD "")
    let fr := geoLoop net rest fg.2
    (countryFactRecord c fg.1 :: fr.1, fr.2)

/-- `DataCollector.get_geography_data`: a failing countries fetch — or a
payload of fewer than 15 countries, which makes `random.sample(countries, 15)`
raise `ValueError` inside the same `try` — degrades to the fallback bundle. -/
def get_geography_data (net : NetEnv) (g : Rng) (smp : Samples) :
    FactBundle × Rng :=
  match net.countriesAll with
  | none => (get_fallback_geography_data, g)
  | some countries =>
    if countries.length < 15 then (get_fallback_geography_data, g)
    else
      let fr := geoLoop net smp.geo g
      ({ category := "geography",
         data := fr.1.take 10,
         metadata :=
           [("total_countries", FieldVal.n countries.length),
            ("data_source", FieldVal.s "REST Countries API")] }, fr.2)

/-- `DataCollector.get_history_data`: a per-topic `except` merely logs,
so failed topics are skipped and there is no fallback bundle. -/
def get_history_data (net : NetEnv) (smp : Samples) : FactBundle :=
  let facts := smp.hist.filterMap (fun topic =>
    (net.wikipediaPage topic).map (fun page =>
      ([("topic", FieldVal.s topic),
        ("summary", FieldVal.s (truncateEllipsis page.summary 300)),
        ("interesting_fact", FieldVal.s (extract_interesting_fact page.summary)),
        ("url", FieldVal.s page.url)] : FactRecord)))
  { category := "history",
    data := facts,
    metadata :=
      [("topics_covered", FieldVal.n facts.length),
       ("data_source", FieldVal.s "Wikipedia API")] }

/-- The per-topic loop of `get_science_data` (a failed topic is skipped;
`generate_importance_statement` consumes one draw per successful topic). -/
def sciLoop (net : NetEnv) : List String → Rng → List FactRecord × Rng
  | [], g => ([], g)
  | topic :: rest, g =>
    match net.wikipediaPage topic with
    | none => sciLoop net rest g
    | some page =>
      let ig := generate_importance_statement g topic
      let fr := sciLoop net rest ig.2
      (([("topic", FieldVal.s topic),
         ("summary", FieldVal.s (truncateEllipsis page.summary 250)),
         ("discovery_year", FieldVal.s (extract_year_from_text page.summary)),
         ("importance", FieldVal.s ig.1)] : FactRecord) :: fr.1, fr.2)

/-- `DataCollector.get_science_data`: like history, no fallback bundle. -/
def get_science_data (net : NetEnv) (g : Rng) (smp : Samples) :
    FactBundle × Rng :=
  let fr := sciLoop net smp.sci g
  ({ category := "science",
     data := fr.1,
     metadata :=
       [("topics_covered", FieldVal.n fr.1.length),
        ("data_source", FieldVal.s "Wikipedia API")] }, fr.2)

/-- The APOD record appended by `get_space_data` on an HTTP 200 answer. -/
def apodFactRecord (payload : ApodPayload) : FactRecord :=
  [("topic", FieldVal.s "NASA Picture of the Day"),
   ("title", FieldVal.s (apodGet payload "title")),
   ("explanation", FieldVal.s (apodGet payload "explanation")),
   ("image_url", FieldVal.s (apodGet payload "url")),
   ("date", FieldVal.s (apodGet payload "date"))]

/-- `DataCollector.get_space_data`: the APOD fetch raising (`none`)
reaches the outer `except` and yields the fallback bundle; a non-200
status merely skips the APOD record; each Wikipedia topic has its own
`except ... continue`. -/
def get_space_data (net : NetEnv) (smp : Samples) : FactBundle :=
  match net.nasaApod with
  | none => get_fallback_space_data
  | some sp =>
    let nasaFacts : List FactRecord :=
      if sp.1 = 200 then [apodFactRecord sp.2] else []
    let wikiFacts := smp.space.filterMap (fun topic =>
      (net.wikipediaPage topic).map (fun page =>
        ([("topic", FieldVal.s topic),
          ("summary", FieldVal.s (truncateEllipsis page.summary 300)),
          ("interesting_fact", FieldVal.s (extract_interesting_fact page.summary)),
          ("url", FieldVal.s page.url)] : FactRecord)))
    { category := "space",
      data := nasaFacts ++ wikiFacts,
      metadata :=
        [("topics_covered", FieldVal.n (nasaFacts ++ wikiFacts).length),
         ("data_source", FieldVal.ls ["NASA API", "Wikipedia"])] }

/-- The per-topic loop of `get_technology_data` (`except ... continue`
per topic; note the source extracts from `page.content` here). -/
def techLoop (net : NetEnv) : List String → Rng → List FactRecord × Rng
  | [], g => ([], g)
  | topic :: rest, g =>
    match net.wikipediaPage topic with
    | none => techLoop net rest g
    | some page =>
      let ig := generate_tech_impact_statement g topic
      let fr := techLoop net rest ig.2
      (([("topic", FieldVal.s topic),
         ("summary", FieldVal.s (truncateEllipsis page.summary 250)),
         ("latest_developments", FieldVal.s (extract_interesting_fact page.content)),
         ("impact", FieldVal.s ig.1)] : FactRecord) :: fr.1, fr.2)

/-- `DataCollector.get_technology_data`: the inner `except ... continue`
swallows every per-topic failure, so the fallback bundle of the outer
`except` is unreachable from failing network calls alone. -/
def get_technology_data (net : NetEnv) (g : Rng) (smp : Samples) :
    FactBundle × Rng :=
  let fr := techLoop net smp.tech g
  ({ category := "technology",
     data := fr.1,
     metadata :=
       [("topics_covered", FieldVal.n fr.1.length),
        ("data_source", FieldVal.s "Wikipedia")] }, fr.2)

/-- The per-topic loop of `get_psychology_data`. -/
def psychLoop (net : NetEnv) : List String → Rng → List FactRecord × Rng
  | [], g => ([], g)
  | topic :: rest, g =>
    match net.wikipediaPage topic with
    | none => psychLoop net rest g
    | some page =>
      let ig := generate_psychology_impact g topic
      let fr := psychLoop net rest ig.2
      (([("topic", FieldVal.s topic),
         ("summary", FieldVal.s (truncateEllipsis page.summary 300)),
         ("key_concepts", FieldVal.s (extract_interesting_fact page.content)),
         ("significance", FieldVal.s ig.1)] : FactRecord) :: fr.1, fr.2)

/-- `DataCollector.get_psychology_data`: like technology, the fallback
bundle is unreachable from failing network calls alone. -/
def get_psychology_data (net : NetEnv) (g : Rng) (smp : Samples) :
    FactBundle × Rng :=
  let fr := psychLoop net smp.psych g
  ({ category := "psychology",
     data := fr.1,
     metadata :=
       [("topics_covered", FieldVal.n fr.1.length),
        ("data_source", FieldVal.s "Wikipedia")] }, fr.2)

/-- The per-category loop of `get_trending_data`: each sampled category
contributes the first three records of its bundle. -/
def trendLoop (net : NetEnv) (smp : Samples) : List String → Rng → List FactRecord × Rng
  | [], g => ([], g)
  | cat :: rest, g =>
    let bg : FactBundle × Rng :=
      if cat = "science" then get_science_data net g smp
      else if cat = "history" then (get_history_data net smp, g)
      else if cat = "geography" then get_geography_data net g smp
      else if cat = "space" then (get_space_data net smp, g)
      else get_technology_data net g smp
    let fr := trendLoop net smp rest bg.2
    (bg.1.data.take 3 ++ fr.1, fr.2)

/-- `DataCollector.get_trending_data`: `random.shuffle` is modelled by
the explicit `shuffle` oracle (theorems quantify over permutations). -/
def get_trending_data (net : NetEnv) (g : Rng) (smp : Samples)
    (shuffle : List FactRecord → List FactRecord) : FactBundle × Rng :=
  let fr := trendLoop net smp smp.trend g
  let trending_facts := (shuffle fr.1).take 10
  ({ category := "trending",
     data := trending_facts,
     metadata :=
       [("topics_covered", FieldVal.n trending_facts.length),
        ("data_source", FieldVal.s "Mixed Sources")] }, fr.2)

/-- `DataCollector.get_topic_data`: the category dispatch. -/
def get_topic_data (net : NetEnv) (g : Rng) (smp : Samples)
    (shuffle : List FactRecord → List FactRecord) (category : String) :
    FactBundle × Rng :=
  if category = "geography" then get_geography_data net g smp
  else if category = "history" then (get_history_data net smp, g)
  else if category = "science" then get_science_data net g smp
  else if category = "space" then (get_space_data net smp, g)
  else if category = "technology" then get_technology_data net g smp
  else if category = "psychology" then get_psychology_data net g smp
  else get_trending_data net g smp shuffle

/-! ### ContentGenerator (src/src/content_generator.py) -/

/-- The four script sections plus the concatenated full script. -/
structure Script where
  hook : String
  intro : String
  list_items : String
  conclusion : String
  full_script : String
deriving DecidableEq, Repr

/-- The SEO metadata dict of `generate_metadata`. -/
structure ContentMetadata where
  description : String
  tags : List String
  thumbnail_text : String
deriving DecidableEq, Repr

/-- The content bundle returned by `create_list_content`. -/
structure Content where
  title : String
  script : Script
  category : String
  metadata : ContentMetadata
  raw_data : FactBundle
  estimated_duration : Nat
deriving DecidableEq, Repr

/-- `ContentGenerator.title_templates` plus the default of
`self.title_templates.get(category, ["10 Amazing Facts About \x7b\x7d"])`. -/
def title_templates (category : String) : List String :=
  if category = "geography" then
    ["10 Countries That Technically Don\x27t Exist",
     "Mind-Blowing Facts About \x7b\x7d Countries",
     "Countries With the Weirdest Laws You Won\x27t Believe",
     "10 Places on Earth That Look Like Another Planet"]
  else if category = "history" then
    ["Historical Events That Changed Everything",
     "10 Mysteries From History We Still Can\x27t Solve",
     "Shocking Facts About \x7b\x7d That Schools Don\x27t Teach",
     "Historical Figures Who Were Actually Terrible People"]
  else if category = "science" then
    ["Scientific Facts That Will Blow Your Mind",
     "10 Scientific Discoveries That Shocked the World",
     "Science Facts That Sound Fake But Are True",
     "Mind-Bending Scientific Phenomena Explained"]
  else ["10 Amazing Facts About \x7b\x7d"]

/-- `ContentGenerator.hooks`. -/
def hooks : List String :=
  ["You won\x27t believe what I discovered about \x7b\x7d...",
   "Most people have no idea that \x7b\x7d...",
   "This is going to completely change how you think about \x7b\x7d...",
   "I spent hours researching this, and what I found shocked me...",
   "Number 3 on this list will absolutely blow your mind..."]

/-- `ContentGenerator.generate_title` (the `data` argument is unused in
the source as well). -/
def generate_title (g : Rng) (data : FactBundle) (category : String) :
    String × Rng :=
  let templates := title_templates category
  let tg := randChoice g templates ""
  if category = "geography" then
    let wg := randChoice tg.2 ["Amazing", "Incredible", "Shocking"] ""
    (pyFormatD tg.1 [wg.1], wg.2)
  else if category = "history" then
    let wg := randChoice tg.2 ["Ancient Times", "The Past", "World History"] ""
    (pyFormatD tg.1 [wg.1], wg.2)
  else (tg.1, tg.2)

/-- `ContentGenerator.format_number`. -/
def format_number (num : Nat) : String :=
  if 1000000 ≤ num then formatOneDecimal num 1000000 ++ " million"
  else if 1000 ≤ num then formatOneDecimal num 1000 ++ " thousand"
  else natToStr num

/-- `ContentGenerator.format_list_item`: geography records (with a
`name` key), topic records, and the `str(item)` fallback, which is
rendered loosely since every record the collector produces carries a
`name` or `topic` key. -/
def format_list_item (number : Nat) (item : FactRecord) : String :=
  match recordGet item "name" with
  | some v =>
    "Number " ++ natToStr number ++ ": " ++ fieldStr v ++ ". " ++
      strGetD item "interesting_fact" "This country has unique features." ++
      " With a population of " ++ format_number (natGetD item "population" 0) ++
      ", it\x27s truly fascinating."
  | none =>
    match recordGet item "topic" with
    | some v =>
      "Number " ++ natToStr number ++ ": " ++ fieldStr v ++ ". " ++
        strGetD item "summary" "This topic is incredibly important." ++ " " ++
        strGetD item "importance" ""
    | none =>
      "Number " ++ natToStr number ++ ": " ++
        String.intercalate "; " (item.map (fun p => p.1 ++ "=" ++ fieldStr p.2))

/-- `ContentGenerator.generate_list_items`: every record of this model
is a dict, so the `isinstance(item, dict)` guard always passes. -/
def generate_list_items (data_items : List FactRecord) : String :=
  (List.enumFrom 1 (data_items.take 10)).foldl
    (fun acc p => acc ++ (format_list_item p.1 p.2 ++ " ")) ""

/-- `ContentGenerator.generate_script`. -/
def generate_script (g : Rng) (data : FactBundle) (title : String)
    (category : String) : Script × Rng :=
  let hg := randChoice g hooks ""
  let hook := pyFormatD hg.1 [category]
  let intro := "Welcome back to the channel! Today we\x27re diving into " ++
    pyLower title ++
    ". Make sure to subscribe and hit that notification bell because this content is absolutely mind-blowing!"
  let list_items := generate_list_items data.data
  let conclusion := "Which fact surprised you the most? Let me know in the comments below! And if you enjoyed this video, smash that like button and subscribe for more incredible content like this!"
  ({ hook := hook,
     intro := intro,
     list_items := list_items,
     conclusion := conclusion,
     full_script := hook ++ " " ++ intro ++ " " ++ list_items ++ " " ++ conclusion },
   hg.2)

/-- `ContentGenerator.generate_metadata` tag table with its default. -/
def metadata_tags (category : String) : List String :=
  if category = "geography" then
    ["countries", "geography", "world facts", "travel", "educational"]
  else if category = "history" then
    ["history", "historical facts", "ancient", "past events", "educational"]
  else if category = "science" then
    ["science", "scientific facts", "discoveries", "research", "educational"]
  else if category = "space" then
    ["space", "astronomy", "nasa", "universe", "cosmos"]
  else if category = "technology" then
    ["technology", "tech facts", "innovation", "future", "gadgets"]
  else ["educational", "facts", "top 10"]

/-- `ContentGenerator.generate_metadata`. -/
def generate_metadata (title category : String) : ContentMetadata :=
  { description := "Discover amazing facts in this educational video about " ++
      category ++ ". " ++ title ++ " - Subscribe for more incredible content!",
    tags := metadata_tags category,
    thumbnail_text := "TOP 10\n" ++ pyUpper category ++ "\nFACTS" }

/-- `ContentGenerator.estimate_duration`:
`int((len(script['full_script'].split()) / 150) * 60)` with binary64
division and multiplication. -/
def estimate_duration (script : Script) : Nat :=
  float_duration (wordCount script.full_script)

/-- `ContentGenerator.create_list_content`. -/
def create_list_content (g : Rng) (raw_data : FactBundle) (category : String) :
    Content × Rng :=
  let tg := generate_title g raw_data category
  let sg := generate_script tg.2 raw_data tg.1 category
  ({ title := tg.1,
     script := sg.1,
     category := category,
     metadata := generate_metadata tg.1 category,
     raw_data := raw_data,
     estimated_duration := estimate_duration sg.1 }, sg.2)

/-! ### Persistence (main.py) -/

/-- One row of the `videos` table created by `setup_database`
(`title TEXT UNIQUE`, counters defaulted at insertion). -/
structure VideoRow where
  title : String
  topic_category : String
  created_date : String
  youtube_url : String
  instagram_url : String
  views : Nat
  engagement_rate : ℚ
deriving DecidableEq, Repr

/-- The one storage error relevant here: sqlite3.IntegrityError raised
by the UNIQUE constraint on `videos.title`. -/
inductive SqlError where
  | uniqueTitleViolation
deriving DecidableEq, Repr

/-- An INSERT into `videos`: sqlite rejects a duplicate (non-NULL)
title with an IntegrityError, otherwise appends the row. -/
def insertVideo (db : List VideoRow) (r : VideoRow) :
    Except SqlError (List VideoRow) :=
  if db.any (fun x => x.title == r.title) then
    Except.error SqlError.uniqueTitleViolation
  else Except.ok (db ++ [r])

/-- The row built by `save_video_record` (counters take their schema
defaults; `now` stands for `datetime.now().isoformat()`). -/
def videoRowOf (content : Content) (upload_results : List (String × String))
    (now : String) : VideoRow :=
  { title := content.title,
    topic_category := content.category,
    created_date := now,
    youtube_url := (upload_results.lookup "youtube_url").getD "",
    instagram_url := (upload_results.lookup "instagram_url").getD "",
    views := 0,
    engagement_rate := 0 }

/-- `YouTubeAutomationSystem.save_video_record`: a bare INSERT with no
try/except, so a constraint violation propagates to the caller. -/
def save_video_record (db : List VideoRow) (content : Content)
    (upload_results : List (String × String)) (now : String) :
    Except SqlError (List VideoRow) :=
  insertVideo db (videoRowOf content upload_results now)

/-! ### VideoCreator (src/src/video_creator.py)

Only the control flow relevant to the claims is modelled: clips are
represented by their durations, and the PIL/moviepy drawing, encoding
and file output are library effects outside the embedding.  -/

/-- The Python exception surfaced by the modelled paths of
`create_long_form_video`. -/
inductive RenderError where
  | zeroDivision
deriving DecidableEq, Repr

/-- `VideoCreator.create_content_clips`: `clip_duration =
total_duration / len(data_items)` raises ZeroDivisionError when the
record list is empty; otherwise one equal-duration clip per record. -/
def create_content_clips (content : Content) (total_duration : ℚ) :
    Except RenderError (List ℚ) :=
  let data_items := content.raw_data.data.take 10
  if data_items.length = 0 then Except.error RenderError.zeroDivision
  else Except.ok (data_items.map (fun _ => total_duration / data_items.length))

/-- `VideoCreator.create_long_form_video`: 5 s title card, the content
clips, 5 s outro; the blanket `except` turns any raised error into a
logged `None`, and a successful render returns the output file name
(the random suffix is the `outName` parameter). -/
def create_long_form_video (content : Content) (audioDuration : Option ℚ)
    (outName : String) : Option String :=
  let video_duration : ℚ := match audioDuration with | some d => d | none => 480
  match create_content_clips content (video_duration - 10) with
  | Except.error _ => none
  | Except.ok clips =>
    let _timeline := 5 :: clips ++ [5]
    some outName

/-! ### Spec-side definitions and concrete inputs used by the theorems -/

/-- Value of a numerator/denominator pair as a rational. -/
def pqVal (p : Nat × Nat) : ℚ := (p.1 : ℚ) / (p.2 : ℚ)

/-- The length test exactly as the claim words it: stripped length in
the window `[20, 150)`. -/
def inLenWindowClaimed (sentence : String) : Bool :=
  20 ≤ pyLen (pyStrip sentence) && pyLen (pyStrip sentence) < 150

/-- `extract_interesting_fact` as the claim describes it (first
keyword sentence with stripped length in `[20, 150)`, else first
sentence in that window, else truncated prefix). -/
def extract_fact_as_claimed (text : String) : String :=
  let sentences := pySplitDot text
  match sentences.find? (fun s => keywordHit s && inLenWindowClaimed s) with
  | some s => pyStrip s
  | none =>
    match sentences.find? inLenWindowClaimed with
    | some s => pyStrip s
    | none => if 150 < pyLen text then pyTakeStr text 150 ++ "..." else text

/-- The amended description: identical to the claim except that the
length window is strict on both sides (`20 < len < 150`), which is what
the code tests. -/
def extract_fact_amended (text : String) : String :=
  let sentences := pySplitDot text
  match sentences.find? (fun s => keywordHit s && inLenWindow s) with
  | some s => pyStrip s
  | none =>
    match sentences.find? inLenWindow with
    | some s => pyStrip s
    | none => if 150 < pyLen text then pyTakeStr text 150 ++ "..." else text

/-- A network oracle on which every call raises. -/
def netAllFail : NetEnv :=
  { countriesAll := none, wikipediaPage := fun _ => none, nasaApod := none }

/-- An empty draw stream. -/
def rng0 : Rng := ⟨[]⟩

/-- A concrete sampling outcome (the full topic lists in their source
order, one space topic, and the trending sample that draws the three
fallback-less categories). -/
def samples0 : Samples :=
  { geo := [], hist := historical_topics, sci := science_topics,
    space := ["Black hole"], tech := tech_topics, psych := psych_topics,
    trend := ["science", "history", "technology"] }

/-- A concrete APOD payload with a non-empty explanation. -/
def apodPayload0 : ApodPayload :=
  [("title", "Pillars of Creation"),
   ("explanation", "Interstellar dust columns imaged in the Eagle Nebula."),
   ("url", "https://apod.nasa.gov/image.jpg"),
   ("date", "2024-01-01")]

/-- A network oracle answering the APOD endpoint with HTTP 200. -/
def netApodOk : NetEnv :=
  { countriesAll := none, wikipediaPage := fun _ => none,
    nasaApod := some (200, apodPayload0) }

/-- A network oracle answering the APOD endpoint with HTTP 503. -/
def netApodBad : NetEnv :=
  { countriesAll := none, wikipediaPage := fun _ => none,
    nasaApod := some (503, apodPayload0) }

/-- A small script used to instantiate the duration theorems. -/
def scriptSmall : Script :=
  { hook := "a", intro := "b", list_items := "c", conclusion := "d",
    full_script := "a b c d" }

/-- A slightly longer script used to instantiate monotonicity. -/
def scriptLarger : Script :=
  { hook := "a", intro := "b", list_items := "c", conclusion := "d",
    full_script := "a b c d a b c d" }

/-- The characters of a 615-word script (615 copies of `a` separated by
single blanks). -/
def badScriptChars : List Char :=
  (List.replicate 614 ['a', ' ']).flatten ++ ['a']

/-- A script whose full script has exactly 615 whitespace-separated
words: the first word count at which the binary64 evaluation of
`(wc / 150) * 60` truncates below the exact floor. -/
def badScript : Script :=
  { hook := "", intro := "", list_items := "", conclusion := "",
    full_script := String.mk badScriptChars }

/-- Two concrete topic fact records. -/
def recordsTwo : List FactRecord :=
  [[("topic", FieldVal.s "DNA"),
    ("summary", FieldVal.s "DNA carries genetic information."),
    ("importance", FieldVal.s "DNA remains one of the most important concepts in modern science.")],
   [("topic", FieldVal.s "Black holes"),
    ("summary", FieldVal.s "Black holes are regions of extreme gravity."),
    ("importance", FieldVal.s "Understanding Black holes is crucial for advancing human knowledge.")]]

/-- A concrete fact bundle holding `recordsTwo`. -/
def bundleTwo : FactBundle :=
  { category := "science", data := recordsTwo,
    metadata := [("topics_covered", FieldVal.n 2), ("data_source", FieldVal.s "Wikipedia API")] }

/-- A concrete fact bundle with an empty record list. -/
def bundleEmpty : FactBundle :=
  { category := "science", data := [], metadata := [] }

/-- A concrete generated content bundle over `bundleTwo`. -/
def contentA : Content :=
  { title := "Scientific Facts That Will Blow Your Mind",
    script := scriptSmall,
    category := "science",
    metadata := generate_metadata "Scientific Facts That Will Blow Your Mind" "science",
    raw_data := bundleTwo,
    estimated_duration := 1 }

/-- A second content bundle sharing `contentA`'s title. -/
def contentB : Content :=
  { title := "Scientific Facts That Will Blow Your Mind",
    script := scriptLarger,
    category := "history",
    metadata := generate_metadata "Scientific Facts That Will Blow Your Mind" "history",
    raw_data := bundleTwo,
    estimated_duration := 2 }

/-- A content bundle whose fact list is empty (feeds the video-creator
zero-division claim). -/
def contentEmpty : Content :=
  { title := "Empty",
    script := scriptSmall,
    category := "science",
    metadata := generate_metadata "Empty" "science",
    raw_data := bundleEmpty,
    estimated_duration := 1 }

/-! ### Helper lemmas -/

/-- `String.join` distributes over `cons`. -/
theorem str_join_cons (a : String) (l : List String) :
    String.join (a :: l) = a ++ String.join l := by
  apply String.ext
  simp [String.join_eq]

/-- A left fold that appends `f x` per element is the seed followed by
the joined images. -/
theorem foldl_append_join {α : Type} (f : α → String) (l : List α) (s : String) :
    l.foldl (fun acc x => acc ++ f x) s = s ++ String.join (l.map f) := by
  induction l generalizing s with
  | nil => simp [String.join]
  | cons x l ih => simp [ih, str_join_cons, String.append_assoc]

/-- `List.getD` at a reduced index is a member, for nonempty lists. -/
theorem getD_mod_mem {α : Type} (l : List α) (h : l ≠ []) (i : Nat) (d : α) :
    l.getD (i % l.length) d ∈ l := by
  have hpos : 0 < l.length := List.length_pos.mpr h
  have hlt : i % l.length < l.length := Nat.mod_lt _ hpos
  rw [List.getD_eq_getElem l d hlt]
  exact List.getElem_mem hlt

/-- `filterMap` of a constantly-`none` function is empty. -/
theorem filterMap_none_of {α β : Type} (l : List α) (f : α → Option β)
    (h : ∀ x, f x = none) : l.filterMap f = [] := by
  induction l with
  | nil => rfl
  | cons x l ih => simp [List.filterMap_cons, h, ih]

/-! ### C5 — determinism of `create_list_content` -/

/-- C5: `create_list_content` is deterministic: with equal draw
streams, equal raw fact bundles and equal categories, the two runs
agree on the title, on the concatenated full script, and on the
metadata — the function reads nothing else. -/
theorem create_list_content_deterministic (g1 g2 : Rng) (d1 d2 : FactBundle)
    (c1 c2 : String) (hg : g1 = g2) (hd : d1 = d2) (hc : c1 = c2) :
    (create_list_content g1 d1 c1).1.title = (create_list_content g2 d2 c2).1.title ∧
    (create_list_content g1 d1 c1).1.script.full_script =
      (create_list_content g2 d2 c2).1.script.full_script ∧
    (create_list_content g1 d1 c1).1.metadata = (create_list_content g2 d2 c2).1.metadata := by
  subst hg
  subst hd
  subst hc
  exact ⟨rfl, rfl, rfl⟩

/-- Witness for C5 at a concrete draw stream, bundle and category. -/
theorem create_list_content_deterministic_witness :
    (create_list_content ⟨[3, 1, 4]⟩ bundleTwo "science").1.title =
      (create_list_content ⟨[3, 1, 4]⟩ bundleTwo "science").1.title ∧
    (create_list_content ⟨[3, 1, 4]⟩ bundleTwo "science").1.script.full_script =
      (create_list_content ⟨[3, 1, 4]⟩ bundleTwo "science").1.script.full_script ∧
    (create_list_content ⟨[3, 1, 4]⟩ bundleTwo "science").1.metadata =
      (create_list_content ⟨[3, 1, 4]⟩ bundleTwo "science").1.metadata :=
  create_list_content_deterministic ⟨[3, 1, 4]⟩ ⟨[3, 1, 4]⟩ bundleTwo bundleTwo
    "science" "science" rfl rfl rfl

/-! ### C10 — empty fact list makes the long-form render return `None` -/

/-- C10: with an empty fact list, `create_content_clips` divides the
allotted duration by zero; the resulting `ZeroDivisionError` is caught
by the blanket handler of `create_long_form_video`, which therefore
returns `None` whatever the audio duration and output name. -/
theorem create_long_form_video_none_on_empty (content : Content)
    (h : content.raw_data.data = []) (audioDuration : Option ℚ) (outName : String) :
    create_long_form_video content audioDuration outName = none := by
  simp [create_long_form_video, create_content_clips, h]

/-- Witness for C10 at a concrete empty-data content bundle. -/
theorem create_long_form_video_none_on_empty_witness :
    create_long_form_video contentEmpty (some 120) "long_form_science_1234.mp4" = none :=
  create_long_form_video_none_on_empty contentEmpty rfl (some 120)
    "long_form_science_1234.mp4"

/-! ### C2 — duplicate titles violate the storage uniqueness constraint -/

/-- C2: after a successful `save_video_record`, saving a second content
bundle with the same title hits the UNIQUE constraint on
`videos.title`; `save_video_record` catches nothing, so the integrity
error propagates out of it instead of overwriting the row. -/
theorem save_video_record_duplicate_title_raises (db db' : List VideoRow)
    (c1 c2 : Content) (u1 u2 : List (String × String)) (t1 t2 : String)
    (htitle : c1.title = c2.title)
    (hfirst : save_video_record db c1 u1 t1 = Except.ok db') :
    save_video_record db' c2 u2 t2 = Except.error SqlError.uniqueTitleViolation := by
  unfold save_video_record insertVideo at hfirst ⊢
  by_cases hdup : db.any (fun x => x.title == (videoRowOf c1 u1 t1).title)
  · simp [hdup] at hfirst
  · simp only [hdup, Bool.false_eq_true, if_neg, ite_false] at hfirst
    have hdb : db' = db ++ [videoRowOf c1 u1 t1] := by
      cases hfirst
      rfl
    subst hdb
    have hany : (db ++ [videoRowOf c1 u1 t1]).any
        (fun x => x.title == (videoRowOf c2 u2 t2).title) = true := by
      simp [List.any_append, videoRowOf, htitle]
    simp [hany]

/-- Witness for C2: inserting `contentA` into an empty table and then
`contentB` (same title) raises the uniqueness violation. -/
theorem save_video_record_duplicate_title_raises_witness :
    save_video_record ([] ++ [videoRowOf contentA [] "2024-01-01T09:00:00"])
      contentB [] "2024-01-02T09:00:00" =
      Except.error SqlError.uniqueTitleViolation :=
  save_video_record_duplicate_title_raises []
    ([] ++ [videoRowOf contentA [] "2024-01-01T09:00:00"]) contentA contentB
    [] [] "2024-01-01T09:00:00" "2024-01-02T09:00:00" rfl rfl

/-! ### C9 — one list item per record, no length validation -/

/-- C9: for any fact list with fewer than 10 records,
`generate_list_items` emits exactly one numbered item per record — the
concatenation of `format_list_item i record ++ " "` over the list
enumerated from 1 — and the item count equals the record count; the
function is total, so no error is raised and no minimum length is
enforced. -/
theorem generate_list_items_item_per_record (ds : List FactRecord)
    (h : ds.length < 10) :
    generate_list_items ds =
      String.join ((List.enumFrom 1 ds).map (fun p => format_list_item p.1 p.2 ++ " ")) ∧
    ((List.enumFrom 1 ds).map (fun p => format_list_item p.1 p.2 ++ " ")).length =
      ds.length := by
  have htake : ds.take 10 = ds := List.take_of_length_le (le_of_lt h)
  constructor
  · unfold generate_list_items
    rw [htake, foldl_append_join]
    simp
  · simp [List.enumFrom_length]

/-- Witness for C9 at a concrete two-record list. -/
theorem generate_list_items_item_per_record_witness :
    generate_list_items recordsTwo =
      String.join ((List.enumFrom 1 recordsTwo).map
        (fun p => format_list_item p.1 p.2 ++ " ")) ∧
    ((List.enumFrom 1 recordsTwo).map
      (fun p => format_list_item p.1 p.2 ++ " ")).length = recordsTwo.length :=
  generate_list_items_item_per_record recordsTwo (by decide)

/-! ### C8 — geography titles come from the template pool, no stray placeholder -/

/-- C8: for every draw stream and fact bundle, the geography title is
one of the four configured geography templates instantiated with one of
the three filler words, and the result contains no unresolved
placeholder pair. -/
theorem generate_title_geography_from_pool (g : Rng) (d : FactBundle) :
    ∃ t ∈ title_templates "geography",
      ∃ w ∈ (["Amazing", "Incredible", "Shocking"] : List String),
        (generate_title g d "geography").1 = pyFormatD t [w] ∧
        strContains (generate_title g d "geography").1 "\x7b\x7d" = false := by
  have hnoph : ∀ t ∈ title_templates "geography",
      ∀ w ∈ (["Amazing", "Incredible", "Shocking"] : List String),
        strContains (pyFormatD t [w]) "\x7b\x7d" = false := by decide
  have h4 : title_templates "geography" ≠ [] := by decide
  have h3 : (["Amazing", "Incredible", "Shocking"] : List String) ≠ [] := by decide
  have hres : (generate_title g d "geography").1 =
      pyFormatD
        ((title_templates "geography").getD
          ((g.next).1 % (title_templates "geography").length) "")
        [(["Amazing", "Incredible", "Shocking"] : List String).getD
          (((g.next).2.next).1 %
            (["Amazing", "Incredible", "Shocking"] : List String).length) ""] := by
    simp [generate_title, randChoice]
  refine ⟨_, getD_mod_mem _ h4 _ _, _, getD_mod_mem _ h3 _ _, hres, ?_⟩
  rw [hres]
  exact hnoph _ (getD_mod_mem _ h4 _ _) _ (getD_mod_mem _ h3 _ _)

/-! ### C1 — fallback behaviour when every network call raises -/

/-- C1 counterexample: for the supported category `history`, when every
network call raises, the returned bundle's `data` list is empty — the
per-topic handlers swallow the failures and `get_history_data` has no
fallback record set, so the claimed "non-empty fact list for every
supported category" fails at this concrete input. -/
theorem get_topic_data_history_allfail_empty :
    (get_topic_data netAllFail rng0 samples0 id "history").1.data = [] := by
  decide

/-- The science loop yields nothing when every Wikipedia fetch raises. -/
theorem sciLoop_allfail (net : NetEnv) (hw : ∀ t, net.wikipediaPage t = none)
    (l : List String) (g : Rng) : sciLoop net l g = ([], g) := by
  induction l with
  | nil => rfl
  | cons t rest ih => simp [sciLoop, hw t, ih]

/-- The technology loop yields nothing when every Wikipedia fetch raises. -/
theorem techLoop_allfail (net : NetEnv) (hw : ∀ t, net.wikipediaPage t = none)
    (l : List String) (g : Rng) : techLoop net l g = ([], g) := by
  induction l with
  | nil => rfl
  | cons t rest ih => simp [techLoop, hw t, ih]

/-- The psychology loop yields nothing when every Wikipedia fetch raises. -/
theorem psychLoop_allfail (net : NetEnv) (hw : ∀ t, net.wikipediaPage t = none)
    (l : List String) (g : Rng) : psychLoop net l g = ([], g) := by
  induction l with
  | nil => rfl
  | cons t rest ih => simp [psychLoop, hw t, ih]

/-- History data under total network failure: the bundle keeps its
shape but the record list is empty. -/
theorem get_history_data_allfail (net : NetEnv)
    (hw : ∀ t, net.wikipediaPage t = none) (smp : Samples) :
    (get_history_data net smp).data = [] := by
  unfold get_history_data
  exact filterMap_none_of _ _ (fun t => by rw [hw t]; rfl)

/-- C1 amended: when every network call raises, only geography (3
fallback records) and space (2 fallback records) return non-empty fact
lists; history, science, technology and psychology return empty lists,
and trending returns whatever its sampled source categories return —
empty when it draws `science`, `history`, `technology`, five records
when it draws `geography`, `space`, `history`. -/
theorem get_topic_data_network_failure_profile (net : NetEnv) (g : Rng)
    (smp : Samples) (shuffle : List FactRecord → List FactRecord)
    (hc : net.countriesAll = none) (hw : ∀ t, net.wikipediaPage t = none)
    (hn : net.nasaApod = none) :
    (get_topic_data net g smp shuffle "geography").1.data.length = 3 ∧
    (get_topic_data net g smp shuffle "space").1.data.length = 2 ∧
    (get_topic_data net g smp shuffle "history").1.data = [] ∧
    (get_topic_data net g smp shuffle "science").1.data = [] ∧
    (get_topic_data net g smp shuffle "technology").1.data = [] ∧
    (get_topic_data net g smp shuffle "psychology").1.data = [] ∧
    (get_topic_data net g
      { smp with trend := ["science", "history", "technology"] } id "trending").1.data = [] ∧
    (get_topic_data net g
      { smp with trend := ["geography", "space", "history"] } id "trending").1.data.length = 5 := by
  refine ⟨?_, ?_, ?_, ?_, ?_, ?_, ?_, ?_⟩
  · simp [get_topic_data, get_geography_data, hc, get_fallback_geography_data]
  · simp [get_topic_data, get_space_data, hn, get_fallback_space_data]
  · simp [get_topic_data]
    exact get_history_data_allfail net hw _
  · simp [get_topic_data, get_science_data, sciLoop_allfail net hw]
  · simp [get_topic_data, get_technology_data, techLoop_allfail net hw]
  · simp [get_topic_data, get_psychology_data, psychLoop_allfail net hw]
  · simp [get_topic_data, get_trending_data, trendLoop, get_science_data,
      sciLoop_allfail net hw, get_technology_data, techLoop_allfail net hw,
      get_history_data_allfail net hw, List.take_nil]
  · simp [get_topic_data, get_trending_data, trendLoop, get_geography_data, hc,
      get_space_data, hn, get_history_data_allfail net hw,
      get_fallback_geography_data, get_fallback_space_data]

/-- Witness for C1's amended profile at a concrete oracle, stream and
sampling. -/
theorem get_topic_data_network_failure_profile_witness :
    (get_topic_data netAllFail rng0 samples0 id "geography").1.data.length = 3 ∧
    (get_topic_data netAllFail rng0 samples0 id "space").1.data.length = 2 ∧
    (get_topic_data netAllFail rng0 samples0 id "history").1.data = [] ∧
    (get_topic_data netAllFail rng0 samples0 id "science").1.data = [] ∧
    (get_topic_data netAllFail rng0 samples0 id "technology").1.data = [] ∧
    (get_topic_data netAllFail rng0 samples0 id "psychology").1.data = [] ∧
    (get_topic_data netAllFail rng0
      { samples0 with trend := ["science", "history", "technology"] } id "trending").1.data = [] ∧
    (get_topic_data netAllFail rng0
      { samples0 with trend := ["geography", "space", "history"] } id "trending").1.data.length = 5 :=
  get_topic_data_network_failure_profile netAllFail rng0 samples0 id rfl
    (fun _ => rfl) rfl

/-! ### C3 — `extract_interesting_fact` and its length window -/

/-- The first loop of the source equals a `find?` over the conjunction
of the keyword test and the strict window test. -/
theorem firstKeywordFact_eq_find (l : List String) :
    firstKeywordFact l =
      (l.find? (fun s => keywordHit s && inLenWindow s)).map pyStrip := by
  induction l with
  | nil => rfl
  | cons s rest ih =>
    cases hk : keywordHit s with
    | true =>
      cases hw : inLenWindow s with
      | true => simp [firstKeywordFact, hk, hw, List.find?_cons]
      | false => simp [firstKeywordFact, hk, hw, List.find?_cons, ih]
    | false => simp [firstKeywordFact, hk, List.find?_cons, ih]

/-- The second loop of the source equals a `find?` over the strict
window test. -/
theorem firstWindowFact_eq_find (l : List String) :
    firstWindowFact l = (l.find? inLenWindow).map pyStrip := by
  induction l with
  | nil => rfl
  | cons s rest ih =>
    cases hw : inLenWindow s with
    | true => simp [firstWindowFact, hw, List.find?_cons]
    | false => simp [firstWindowFact, hw, List.find?_cons, ih]

/-- C3 counterexample: on `"  first aaaaaaaaaaaaaa"` (stripped length
exactly 20, keyword `first` present) the claimed `[20,150)` window
mandates returning the stripped sentence, but the code's strict
`20 < len` test rejects it and the fallback returns the raw text, blanks
included — so the claim as stated fails at this input. -/
theorem extract_interesting_fact_window_counterexample :
    extract_fact_as_claimed "  first aaaaaaaaaaaaaa" = "first aaaaaaaaaaaaaa" ∧
    extract_interesting_fact "  first aaaaaaaaaaaaaa" = "  first aaaaaaaaaaaaaa" ∧
    ("  first aaaaaaaaaaaaaa" : String) ≠ "first aaaaaaaaaaaaaa" := by
  exact ⟨by decide, by decide, by decide⟩

/-- C3 amended: `extract_interesting_fact` behaves exactly as the claim
describes once the length window is made strict on both sides
(`20 < stripped length < 150`, i.e. 21 to 149 characters): first
sentence passing keyword and window tests, else first sentence passing
the window test, else the truncated prefix. -/
theorem extract_interesting_fact_strict_window (text : String) :
    extract_interesting_fact text = extract_fact_amended text := by
  simp only [extract_interesting_fact, extract_fact_amended,
    firstKeywordFact_eq_find, firstWindowFact_eq_find]
  cases (pySplitDot text).find? (fun s => keywordHit s && inLenWindow s) with
  | some s => rfl
  | none =>
    cases (pySplitDot text).find? inLenWindow with
    | some s => rfl
    | none => rfl

/-! ### C4 — the APOD entry of `get_space_data` -/

/-- C4: with an HTTP 200 APOD answer carrying a non-empty explanation,
the space bundle's first record is the APOD record, with topic
`NASA Picture of the Day` and that non-empty explanation; with a
non-200 status (and the sampled topics drawn, as in the source, from
the fixed space topic list) no record of the bundle carries that topic,
and `get_space_data` returns normally. -/
theorem get_space_data_apod_entry (net1 net2 : NetEnv) (smp : Samples)
    (payload : ApodPayload) (status : Nat)
    (h200 : net1.nasaApod = some (200, payload))
    (hexp : apodGet payload "explanation" ≠ "")
    (hbad : net2.nasaApod = some (status, payload))
    (hstatus : status ≠ 200)
    (hsmp : ∀ t ∈ smp.space, t ∈ space_topics) :
    ((get_space_data net1 smp).data.head? = some (apodFactRecord payload) ∧
      recordGet (apodFactRecord payload) "topic" =
        some (FieldVal.s "NASA Picture of the Day") ∧
      ∃ e, recordGet (apodFactRecord payload) "explanation" = some (FieldVal.s e) ∧
        e ≠ "") ∧
    ∀ r ∈ (get_space_data net2 smp).data,
      recordGet r "topic" ≠ some (FieldVal.s "NASA Picture of the Day") := by
  constructor
  · refine ⟨?_, ?_, apodGet payload "explanation", ?_, hexp⟩
    · simp [get_space_data, h200]
    · rfl
    · rfl
  · intro r hr
    have hdata : (get_space_data net2 smp).data =
        smp.space.filterMap (fun topic =>
          (net2.wikipediaPage topic).map (fun page =>
            ([("topic", FieldVal.s topic),
              ("summary", FieldVal.s (truncateEllipsis page.summary 300)),
              ("interesting_fact", FieldVal.s (extract_interesting_fact page.summary)),
              ("url", FieldVal.s page.url)] : FactRecord))) := by
      simp [get_space_data, hbad, hstatus]
    rw [hdata] at hr
    rcases List.mem_filterMap.mp hr with ⟨t, ht, hft⟩
    cases hpage : net2.wikipediaPage t with
    | none => rw [hpage] at hft; cases hft
    | some page =>
      rw [hpage] at hft
      have hr' : r = ([("topic", FieldVal.s t),
          ("summary", FieldVal.s (truncateEllipsis page.summary 300)),
          ("interesting_fact", FieldVal.s (extract_interesting_fact page.summary)),
          ("url", FieldVal.s page.url)] : FactRecord) := by
        cases hft
        rfl
      have htne : t ≠ "NASA Picture of the Day" := by
        have hall : ∀ x ∈ space_topics, x ≠ "NASA Picture of the Day" := by decide
        exact hall t (hsmp t ht)
      rw [hr']
      simp [recordGet, List.lookup]
      intro habs
      exact htne habs

/-- Witness for C4 at concrete oracles, payload and sampling. -/
theorem get_space_data_apod_entry_witness :
    ((get_space_data netApodOk samples0).data.head? = some (apodFactRecord apodPayload0) ∧
      recordGet (apodFactRecord apodPayload0) "topic" =
        some (FieldVal.s "NASA Picture of the Day") ∧
      ∃ e, recordGet (apodFactRecord apodPayload0) "explanation" = some (FieldVal.s e) ∧
        e ≠ "") ∧
    ∀ r ∈ (get_space_data netApodBad samples0).data,
      recordGet r "topic" ≠ some (FieldVal.s "NASA Picture of the Day") :=
  get_space_data_apod_entry netApodOk netApodBad samples0 apodPayload0 503
    rfl (by decide) rfl (by decide) (by decide)

/-! ### Correctness of the binary64 model -/

/-- The fuelled logarithm brackets its argument between consecutive
powers of two. -/
theorem log2Fuel_bounds (f : Nat) : ∀ n : Nat, 0 < n → n ≤ f →
    2 ^ log2Fuel f n ≤ n ∧ n < 2 ^ (log2Fuel f n + 1) := by
  induction f with
  | zero => intro n h0 hf; omega
  | succ f ih =>
    intro n h0 hf
    by_cases h2 : 2 ≤ n
    · have hrec := ih (n / 2) (by omega) (by omega)
      rw [show log2Fuel (f + 1) n = log2Fuel f (n / 2) + 1 by
        simp [log2Fuel, h2]]
      rcases hrec with ⟨hl, hr⟩
      constructor
      · calc 2 ^ (log2Fuel f (n / 2) + 1) = 2 * 2 ^ log2Fuel f (n / 2) := by ring
          _ ≤ 2 * (n / 2) := by omega
          _ ≤ n := by omega
      · have : n < 2 * 2 ^ (log2Fuel f (n / 2) + 1) := by omega
        calc n < 2 * 2 ^ (log2Fuel f (n / 2) + 1) := this
          _ = 2 ^ (log2Fuel f (n / 2) + 1 + 1) := by ring
    · rw [show log2Fuel (f + 1) n = 0 by simp [log2Fuel, h2]]
      omega

/-- `natLog2` brackets a positive argument between consecutive powers
of two. -/
theorem natLog2_bounds (n : Nat) (h : 0 < n) :
    2 ^ natLog2 n ≤ n ∧ n < 2 ^ (natLog2 n + 1) :=
  log2Fuel_bounds n n h le_rfl

/-- Cast form of `a ≤ c / d` over naturals. -/
theorem natCast_le_div {a b c : Nat} (hb : 0 < b) :
    ((c : ℚ) ≤ (a : ℚ) / (b : ℚ)) ↔ c * b ≤ a := by
  rw [le_div_iff₀ (by exact_mod_cast hb)]
  exact_mod_cast Iff.rfl

/-- Cast form of `a / b < c` over naturals. -/
theorem div_lt_natCast {a b c : Nat} (hb : 0 < b) :
    ((a : ℚ) / (b : ℚ) < (c : ℚ)) ↔ a < c * b := by
  rw [div_lt_iff₀ (by exact_mod_cast hb)]
  exact_mod_cast Iff.rfl

/-- Cast form of the cross-multiplied comparison of two fractions. -/
theorem div_le_div_nat {a b c d : Nat} (hb : 0 < b) (hd : 0 < d) :
    ((a : ℚ) / (b : ℚ) ≤ (c : ℚ) / (d : ℚ)) ↔ a * d ≤ c * b := by
  rw [div_le_div_iff₀ (by exact_mod_cast hb) (by exact_mod_cast hd)]
  exact_mod_cast Iff.rfl

/-- Cast form of the strict cross-multiplied comparison. -/
theorem div_lt_div_nat {a b c d : Nat} (hb : 0 < b) (hd : 0 < d) :
    ((a : ℚ) / (b : ℚ) < (c : ℚ) / (d : ℚ)) ↔ a * d < c * b := by
  rw [div_lt_div_iff₀ (by exact_mod_cast hb) (by exact_mod_cast hd)]
  exact_mod_cast Iff.rfl

/-- A natural power of two seen as an integer-exponent power in `ℚ`. -/
theorem two_zpow_natCast (p : Nat) : (2 : ℚ) ^ (p : ℤ) = ((2 ^ p : Nat) : ℚ) := by
  rw [zpow_natCast]
  push_cast
  ring

/-- A negative power of two in `ℚ` as a unit fraction. -/
theorem two_zpow_neg_natCast (p : Nat) :
    (2 : ℚ) ^ (-(p : ℤ)) = ((1 : Nat) : ℚ) / ((2 ^ p : Nat) : ℚ) := by
  rw [zpow_neg, two_zpow_natCast]
  push_cast
  rw [inv_eq_one_div]

/-- `floorLog2N` is exact: `2 ^ e ≤ a / b < 2 ^ (e + 1)`. -/
theorem floorLog2N_bounds (a b : Nat) (ha : 0 < a) (hb : 0 < b) :
    (2 : ℚ) ^ floorLog2N a b ≤ (a : ℚ) / (b : ℚ) ∧
    (a : ℚ) / (b : ℚ) < (2 : ℚ) ^ (floorLog2N a b + 1) := by
  obtain ⟨hfa1, hfa2⟩ := natLog2_bounds a ha
  obtain ⟨hfb1, hfb2⟩ := natLog2_bounds b hb
  unfold floorLog2N
  by_cases hord : natLog2 b ≤ natLog2 a
  · set p : Nat := natLog2 a - natLog2 b with hp
    by_cases hchk : b * 2 ^ p ≤ a
    · rw [if_pos hord, if_pos hchk]
      constructor
      · rw [two_zpow_natCast, natCast_le_div hb]
        calc 2 ^ p * b = b * 2 ^ p := by ring
          _ ≤ a := hchk
      · rw [show ((p : Nat) : ℤ) + 1 = ((p + 1 : Nat) : ℤ) by push_cast; ring,
          two_zpow_natCast, div_lt_natCast hb]
        calc a < 2 ^ (natLog2 a + 1) := hfa2
          _ = 2 ^ (p + 1) * 2 ^ natLog2 b := by
            rw [← pow_add]
            congr 1
            omega
          _ ≤ 2 ^ (p + 1) * b := Nat.mul_le_mul_left _ hfb1
    · rw [if_pos hord, if_neg hchk]
      have hup : a < b * 2 ^ p := by omega
      constructor
      · rw [show ((p : Nat) : ℤ) - 1 = ((p : ℤ)) - 1 from rfl,
          zpow_sub₀ (two_ne_zero), zpow_one, two_zpow_natCast]
        rw [div_le_div_iff₀ (by norm_num) (by exact_mod_cast hb)]
        have hkey : 2 ^ p * b ≤ a * 2 := by
          have h1 : 2 ^ p * b < 2 ^ p * 2 ^ (natLog2 b + 1) :=
            mul_lt_mul_of_pos_left hfb2 (by positivity)
          have h2 : 2 ^ p * 2 ^ (natLog2 b + 1) = 2 ^ natLog2 a * 2 := by
            rw [← pow_add, ← pow_succ]
            congr 1
            omega
          have h3 : 2 ^ natLog2 a * 2 ≤ a * 2 := Nat.mul_le_mul_right _ hfa1
          omega
        exact_mod_cast hkey
      · rw [show ((p : Nat) : ℤ) - 1 + 1 = ((p : Nat) : ℤ) by ring,
          two_zpow_natCast, div_lt_natCast hb]
        calc a < b * 2 ^ p := hup
          _ = 2 ^ p * b := by ring
  · have hord' : natLog2 a < natLog2 b := by omega
    set k : Nat := natLog2 b - natLog2 a with hk
    have hk1 : 1 ≤ k := by omega
    by_cases hchk : b ≤ a * 2 ^ k
    · rw [if_neg hord, if_pos hchk]
      constructor
      · rw [two_zpow_neg_natCast]
        rw [div_le_div_nat (by positivity) hb]
        calc 1 * b = b := by ring
          _ ≤ a * 2 ^ k := hchk
      · rw [show -((k : Nat) : ℤ) + 1 = -(((k - 1 : Nat)) : ℤ) by push_cast; omega,
          two_zpow_neg_natCast]
        rw [div_lt_div_nat hb (by positivity)]
        have hkey : a * 2 ^ (k - 1) < 1 * b := by
          have h1 : a * 2 ^ (k - 1) < 2 ^ (natLog2 a + 1) * 2 ^ (k - 1) :=
            mul_lt_mul_of_pos_right hfa2 (by positivity)
          have h2 : 2 ^ (natLog2 a + 1) * 2 ^ (k - 1) = 2 ^ natLog2 b := by
            rw [← pow_add]
            congr 1
            omega
          omega
        exact hkey
    · rw [if_neg hord, if_neg hchk]
      have hup : b > a * 2 ^ k := by omega
      constructor
      · rw [show -((k : Nat) : ℤ) - 1 = -(((k + 1 : Nat)) : ℤ) by push_cast; ring,
          two_zpow_neg_natCast]
        rw [div_le_div_nat (by positivity) hb]
        have hkey : 1 * b ≤ a * 2 ^ (k + 1) := by
          have h1 : b < 2 ^ (natLog2 b + 1) := hfb2
          have h2 : (2 : Nat) ^ (natLog2 b + 1) = 2 ^ natLog2 a * 2 ^ (k + 1) := by
            rw [← pow_add]
            congr 1
            omega
          have h3 : 2 ^ natLog2 a * 2 ^ (k + 1) ≤ a * 2 ^ (k + 1) :=
            Nat.mul_le_mul_right _ hfa1
          omega
        exact hkey
      · rw [show -((k : Nat) : ℤ) - 1 + 1 = -((k : Nat) : ℤ) by ring,
          two_zpow_neg_natCast]
        rw [div_lt_div_nat hb (by positivity)]
        calc a * 2 ^ k < b := hup
          _ = 1 * b := by ring

/-- The mantissa denominator is positive. -/
theorem mantB_pos (a b : Nat) (hb : 0 < b) : 0 < mantB a b := by
  unfold mantB
  split_ifs
  · exact hb
  · positivity

/-- Value of the mantissa pair: the input value scaled by
`2 ^ (52 - e)`. -/
theorem mant_val (a b : Nat) (hb : 0 < b) :
    (mantA a b : ℚ) / (mantB a b : ℚ) =
      (a : ℚ) / (b : ℚ) * (2 : ℚ) ^ ((52 : ℤ) - floorLog2N a b) := by
  unfold mantA mantB
  set s : ℤ := 52 - floorLog2N a b with hs
  split_ifs with h
  · rw [show (2 : ℚ) ^ s = ((2 ^ s.toNat : Nat) : ℚ) by
      rw [← two_zpow_natCast, Int.toNat_of_nonneg h]]
    have hbq : (b : ℚ) ≠ 0 := by exact_mod_cast hb.ne'
    push_cast
    field_simp
  · have hneg : s < 0 := by omega
    rw [show (2 : ℚ) ^ s = (((2 ^ (-s).toNat : Nat) : ℚ))⁻¹ by
      rw [← two_zpow_natCast, ← zpow_neg, Int.toNat_of_nonneg (by omega : (0:ℤ) ≤ -s),
        neg_neg]]
    have hbq : (b : ℚ) ≠ 0 := by exact_mod_cast hb.ne'
    have hpq : ((2 ^ (-s).toNat : Nat) : ℚ) ≠ 0 := by positivity
    push_cast
    push_cast at hpq
    field_simp

/-- The mantissa value lies in the binade `[2 ^ 52, 2 ^ 53)`. -/
theorem mant_bounds (a b : Nat) (ha : 0 < a) (hb : 0 < b) :
    ((2 ^ 52 : Nat) : ℚ) ≤ (mantA a b : ℚ) / (mantB a b : ℚ) ∧
    (mantA a b : ℚ) / (mantB a b : ℚ) < ((2 ^ 53 : Nat) : ℚ) := by
  obtain ⟨h1, h2⟩ := floorLog2N_bounds a b ha hb
  rw [mant_val a b hb]
  set e := floorLog2N a b with he
  have hsc : (0 : ℚ) < (2 : ℚ) ^ ((52 : ℤ) - e) := by positivity
  constructor
  · have := mul_le_mul_of_nonneg_right h1 hsc.le
    calc ((2 ^ 52 : Nat) : ℚ) = (2 : ℚ) ^ (((52 : Nat)) : ℤ) := (two_zpow_natCast 52).symm
      _ = (2 : ℚ) ^ e * (2 : ℚ) ^ ((52 : ℤ) - e) := by
          rw [← zpow_add₀ (two_ne_zero : (2:ℚ) ≠ 0)]
          congr 1
          push_cast
          ring
      _ ≤ (a : ℚ) / (b : ℚ) * (2 : ℚ) ^ ((52 : ℤ) - e) := this
  · have := mul_lt_mul_of_pos_right h2 hsc
    calc (a : ℚ) / (b : ℚ) * (2 : ℚ) ^ ((52 : ℤ) - e)
        < (2 : ℚ) ^ (e + 1) * (2 : ℚ) ^ ((52 : ℤ) - e) := this
      _ = (2 : ℚ) ^ (((53 : Nat)) : ℤ) := by
          rw [← zpow_add₀ (two_ne_zero : (2:ℚ) ≠ 0)]
          congr 1
          push_cast
          ring
      _ = ((2 ^ 53 : Nat) : ℚ) := two_zpow_natCast 53

/-- Rounding to nearest never goes below the floor. -/
theorem rheN_ge_div (A B : Nat) : A / B ≤ rheN A B := by
  simp only [rheN]
  split_ifs <;> omega

/-- Rounding to nearest never exceeds the floor plus one. -/
theorem rheN_le_div_succ (A B : Nat) : rheN A B ≤ A / B + 1 := by
  simp only [rheN]
  split_ifs <;> omega

/-- Natural division is the floor of the rational quotient. -/
theorem natDiv_eq_floor (A B : Nat) : A / B = ⌊(A : ℚ) / (B : ℚ)⌋₊ := by
  rw [show ((B : ℚ)) = ((B : Nat) : ℚ) from rfl, Nat.floor_div_nat, Nat.floor_natCast]

/-- Round-to-nearest-even is monotone with respect to the represented
values. -/
theorem rheN_mono (A1 B1 A2 B2 : Nat) (hb1 : 0 < B1) (hb2 : 0 < B2)
    (h : (A1 : ℚ) / (B1 : ℚ) ≤ (A2 : ℚ) / (B2 : ℚ)) :
    rheN A1 B1 ≤ rheN A2 B2 := by
  have hd : A1 / B1 ≤ A2 / B2 := by
    rw [natDiv_eq_floor, natDiv_eq_floor]
    exact Nat.floor_mono h
  by_cases hlt : A1 / B1 < A2 / B2
  · calc rheN A1 B1 ≤ A1 / B1 + 1 := rheN_le_div_succ A1 B1
      _ ≤ A2 / B2 := by omega
      _ ≤ rheN A2 B2 := rheN_ge_div A2 B2
  · have heq : A1 / B1 = A2 / B2 := by omega
    have hsplit1 : (A1 : ℚ) = (B1 : ℚ) * (A1 / B1 : Nat) + ((A1 % B1 : Nat) : ℚ) := by
      exact_mod_cast (Nat.div_add_mod A1 B1).symm
    have hsplit2 : (A2 : ℚ) = (B2 : ℚ) * (A2 / B2 : Nat) + ((A2 % B2 : Nat) : ℚ) := by
      exact_mod_cast (Nat.div_add_mod A2 B2).symm
    have hfrac : ((A1 % B1 : Nat) : ℚ) / (B1 : ℚ) ≤ ((A2 % B2 : Nat) : ℚ) / (B2 : ℚ) := by
      have hb1q : (0 : ℚ) < (B1 : ℚ) := by exact_mod_cast hb1
      have hb2q : (0 : ℚ) < (B2 : ℚ) := by exact_mod_cast hb2
      have e1 : (A1 : ℚ) / (B1 : ℚ) = (A1 / B1 : Nat) + ((A1 % B1 : Nat) : ℚ) / (B1 : ℚ) := by
        rw [hsplit1]
        field_simp
        ring
      have e2 : (A2 : ℚ) / (B2 : ℚ) = (A2 / B2 : Nat) + ((A2 % B2 : Nat) : ℚ) / (B2 : ℚ) := by
        rw [hsplit2]
        field_simp
        ring
      rw [e1, e2, heq] at h
      linarith
    have hN : A1 % B1 * B2 ≤ A2 % B2 * B1 := (div_le_div_nat hb1 hb2).mp hfrac
    have i1 : B1 ≤ 2 * (A1 % B1) → B2 ≤ 2 * (A2 % B2) := by
      intro hhalf
      have hcalc : B1 * B2 ≤ B1 * (2 * (A2 % B2)) := by
        calc B1 * B2 ≤ 2 * (A1 % B1) * B2 := Nat.mul_le_mul_right _ hhalf
          _ = 2 * (A1 % B1 * B2) := by ring
          _ ≤ 2 * (A2 % B2 * B1) := Nat.mul_le_mul_left _ hN
          _ = B1 * (2 * (A2 % B2)) := by ring
      exact Nat.le_of_mul_le_mul_left hcalc hb1
    have i2 : B1 < 2 * (A1 % B1) → B2 < 2 * (A2 % B2) := by
      intro hhalf
      have hcalc : B1 * B2 < B1 * (2 * (A2 % B2)) := by
        calc B1 * B2 < 2 * (A1 % B1) * B2 := by
              exact mul_lt_mul_of_pos_right hhalf hb2
          _ = 2 * (A1 % B1 * B2) := by ring
          _ ≤ 2 * (A2 % B2 * B1) := Nat.mul_le_mul_left _ hN
          _ = B1 * (2 * (A2 % B2)) := by ring
      exact Nat.lt_of_mul_lt_mul_left hcalc
    simp only [rheN]
    split_ifs <;> omega

/-- Pair values are nonnegative. -/
theorem pqVal_nonneg (p : Nat × Nat) : 0 ≤ pqVal p := by
  unfold pqVal
  positivity

/-- The denominator produced by `rndPair` is positive. -/
theorem rndPair_den_pos (a b : Nat) : 0 < (rndPair a b).2 := by
  unfold rndPair
  split_ifs
  · norm_num
  · show 0 < 2 ^ (52 - floorLog2N a b).toNat
    positivity
  · norm_num

/-- The value computed by `rndPair` is the rounded mantissa rescaled
back by `2 ^ (e - 52)`. -/
theorem rndPair_val (a b : Nat) (ha : 0 < a) :
    pqVal (rndPair a b) =
      ((rheN (mantA a b) (mantB a b) : Nat) : ℚ) *
        (2 : ℚ) ^ (floorLog2N a b - 52) := by
  unfold rndPair
  rw [if_neg ha.ne']
  have hes : floorLog2N a b - 52 = -(52 - floorLog2N a b) := by ring
  rw [hes]
  split_ifs with hsgn
  · unfold pqVal
    rw [show (2 : ℚ) ^ (-(52 - floorLog2N a b)) =
        (((2 ^ (52 - floorLog2N a b).toNat : Nat) : ℚ))⁻¹ by
      rw [← two_zpow_natCast, ← zpow_neg, Int.toNat_of_nonneg hsgn]]
    rw [div_eq_mul_inv]
  · unfold pqVal
    rw [show (2 : ℚ) ^ (-(52 - floorLog2N a b)) =
        ((2 ^ (-(52 - floorLog2N a b)).toNat : Nat) : ℚ) by
      rw [← two_zpow_natCast,
        Int.toNat_of_nonneg (by omega : (0:ℤ) ≤ -(52 - floorLog2N a b))]]
    push_cast
    field_simp

/-- The rounded value never drops below the lower binade boundary. -/
theorem rndPair_val_lower (a b : Nat) (ha : 0 < a) (hb : 0 < b) :
    (2 : ℚ) ^ floorLog2N a b ≤ pqVal (rndPair a b) := by
  obtain ⟨hm1, _⟩ := mant_bounds a b ha hb
  have hBpos := mantB_pos a b hb
  have hfloor : 2 ^ 52 ≤ mantA a b / mantB a b := by
    rw [natDiv_eq_floor]
    calc (2 : Nat) ^ 52 = ⌊((2 ^ 52 : Nat) : ℚ)⌋₊ := by rw [Nat.floor_natCast]
      _ ≤ ⌊(mantA a b : ℚ) / (mantB a b : ℚ)⌋₊ := Nat.floor_mono hm1
  have hrhe : 2 ^ 52 ≤ rheN (mantA a b) (mantB a b) :=
    le_trans hfloor (rheN_ge_div _ _)
  rw [rndPair_val a b ha]
  calc (2 : ℚ) ^ floorLog2N a b
      = ((2 ^ 52 : Nat) : ℚ) * (2 : ℚ) ^ (floorLog2N a b - 52) := by
        rw [← two_zpow_natCast, ← zpow_add₀ (two_ne_zero : (2:ℚ) ≠ 0)]
        congr 1
        push_cast
        ring
    _ ≤ ((rheN (mantA a b) (mantB a b) : Nat) : ℚ) * (2 : ℚ) ^ (floorLog2N a b - 52) := by
        have : ((2 ^ 52 : Nat) : ℚ) ≤ ((rheN (mantA a b) (mantB a b) : Nat) : ℚ) := by
          exact_mod_cast hrhe
        exact mul_le_mul_of_nonneg_right this (by positivity)

/-- The rounded value never exceeds the upper binade boundary. -/
theorem rndPair_val_upper (a b : Nat) (ha : 0 < a) (hb : 0 < b) :
    pqVal (rndPair a b) ≤ (2 : ℚ) ^ (floorLog2N a b + 1) := by
  obtain ⟨_, hm2⟩ := mant_bounds a b ha hb
  have hBpos := mantB_pos a b hb
  have hfloor : mantA a b / mantB a b < 2 ^ 53 := by
    rw [natDiv_eq_floor]
    have hnn : (0 : ℚ) ≤ (mantA a b : ℚ) / (mantB a b : ℚ) := by positivity
    have := Nat.floor_lt hnn |>.mpr (by exact_mod_cast hm2)
    exact_mod_cast this
  have hrhe : rheN (mantA a b) (mantB a b) ≤ 2 ^ 53 := by
    have := rheN_le_div_succ (mantA a b) (mantB a b)
    omega
  rw [rndPair_val a b ha]
  calc ((rheN (mantA a b) (mantB a b) : Nat) : ℚ) * (2 : ℚ) ^ (floorLog2N a b - 52)
      ≤ ((2 ^ 53 : Nat) : ℚ) * (2 : ℚ) ^ (floorLog2N a b - 52) := by
        have : ((rheN (mantA a b) (mantB a b) : Nat) : ℚ) ≤ ((2 ^ 53 : Nat) : ℚ) := by
          exact_mod_cast hrhe
        exact mul_le_mul_of_nonneg_right this (by positivity)
    _ = (2 : ℚ) ^ (floorLog2N a b + 1) := by
        rw [← two_zpow_natCast, ← zpow_add₀ (two_ne_zero : (2:ℚ) ≠ 0)]
        congr 1
        push_cast
        ring

/-- The exponent estimate is monotone with respect to the values. -/
theorem floorLog2N_mono (a1 b1 a2 b2 : Nat) (ha1 : 0 < a1) (hb1 : 0 < b1)
    (ha2 : 0 < a2) (hb2 : 0 < b2)
    (h : (a1 : ℚ) / (b1 : ℚ) ≤ (a2 : ℚ) / (b2 : ℚ)) :
    floorLog2N a1 b1 ≤ floorLog2N a2 b2 := by
  obtain ⟨h1, _⟩ := floorLog2N_bounds a1 b1 ha1 hb1
  obtain ⟨_, h4⟩ := floorLog2N_bounds a2 b2 ha2 hb2
  have : (2 : ℚ) ^ floorLog2N a1 b1 < (2 : ℚ) ^ (floorLog2N a2 b2 + 1) :=
    lt_of_le_of_lt (le_trans h1 h) h4
  have := (zpow_lt_zpow_iff_right₀ (by norm_num : (1:ℚ) < 2)).mp this
  omega

/-- Monotonicity of binary64 rounding: larger exact values round to
larger (or equal) floats. -/
theorem rndPair_mono (a1 b1 a2 b2 : Nat) (hb1 : 0 < b1) (hb2 : 0 < b2)
    (h : (a1 : ℚ) / (b1 : ℚ) ≤ (a2 : ℚ) / (b2 : ℚ)) :
    pqVal (rndPair a1 b1) ≤ pqVal (rndPair a2 b2) := by
  by_cases ha1 : a1 = 0
  · subst ha1
    have : pqVal (rndPair 0 b1) = 0 := by
      unfold rndPair pqVal
      simp
    rw [this]
    exact pqVal_nonneg _
  · have ha1' : 0 < a1 := Nat.pos_of_ne_zero ha1
    have ha2' : 0 < a2 := by
      rcases Nat.eq_zero_or_pos a2 with h0 | h0
      · exfalso
        subst h0
        have hv1 : (0 : ℚ) < (a1 : ℚ) / (b1 : ℚ) := by positivity
        simp only [Nat.cast_zero, zero_div] at h
        linarith
      · exact h0
    have hele := floorLog2N_mono a1 b1 a2 b2 ha1' hb1 ha2' hb2 h
    by_cases heq : floorLog2N a1 b1 = floorLog2N a2 b2
    · rw [rndPair_val a1 b1 ha1', rndPair_val a2 b2 ha2', heq]
      have hmval : (mantA a1 b1 : ℚ) / (mantB a1 b1 : ℚ) ≤
          (mantA a2 b2 : ℚ) / (mantB a2 b2 : ℚ) := by
        rw [mant_val a1 b1 hb1, mant_val a2 b2 hb2, heq]
        exact mul_le_mul_of_nonneg_right h (by positivity)
      have hm := rheN_mono (mantA a1 b1) (mantB a1 b1) (mantA a2 b2) (mantB a2 b2)
        (mantB_pos a1 b1 hb1) (mantB_pos a2 b2 hb2) hmval
      exact mul_le_mul_of_nonneg_right (by exact_mod_cast hm) (by positivity)
    · have hlt : floorLog2N a1 b1 + 1 ≤ floorLog2N a2 b2 := by omega
      calc pqVal (rndPair a1 b1) ≤ (2 : ℚ) ^ (floorLog2N a1 b1 + 1) :=
            rndPair_val_upper a1 b1 ha1' hb1
        _ ≤ (2 : ℚ) ^ floorLog2N a2 b2 :=
            zpow_le_zpow_right₀ (by norm_num) hlt
        _ ≤ pqVal (rndPair a2 b2) := rndPair_val_lower a2 b2 ha2' hb2

/-- The modelled `int((wc / 150) * 60)` is monotone in the word count. -/
theorem float_duration_mono (w1 w2 : Nat) (h : w1 ≤ w2) :
    float_duration w1 ≤ float_duration w2 := by
  have hstep1 : pqVal (rndPair w1 150) ≤ pqVal (rndPair w2 150) :=
    rndPair_mono w1 150 w2 150 (by norm_num) (by norm_num)
      ((div_le_div_iff_of_pos_right (by norm_num : (0:ℚ) < 150)).mpr
        (by exact_mod_cast h))
  have hval1 : (((rndPair w1 150).1 * 60 : Nat) : ℚ) / ((rndPair w1 150).2 : ℚ) =
      pqVal (rndPair w1 150) * 60 := by
    unfold pqVal
    push_cast
    ring
  have hval2 : (((rndPair w2 150).1 * 60 : Nat) : ℚ) / ((rndPair w2 150).2 : ℚ) =
      pqVal (rndPair w2 150) * 60 := by
    unfold pqVal
    push_cast
    ring
  have hstep2 : pqVal (rndPair ((rndPair w1 150).1 * 60) (rndPair w1 150).2) ≤
      pqVal (rndPair ((rndPair w2 150).1 * 60) (rndPair w2 150).2) := by
    apply rndPair_mono _ _ _ _ (rndPair_den_pos w1 150) (rndPair_den_pos w2 150)
    rw [hval1, hval2]
    exact mul_le_mul_of_nonneg_right hstep1 (by norm_num)
  show (rndPair ((rndPair w1 150).1 * 60) (rndPair w1 150).2).1 /
      (rndPair ((rndPair w1 150).1 * 60) (rndPair w1 150).2).2 ≤
    (rndPair ((rndPair w2 150).1 * 60) (rndPair w2 150).2).1 /
      (rndPair ((rndPair w2 150).1 * 60) (rndPair w2 150).2).2
  rw [natDiv_eq_floor, natDiv_eq_floor]
  exact Nat.floor_mono hstep2

/-! ### C7 — duration estimate is monotone in word count -/

/-- C7: for any two scripts where the second has at least as many
whitespace-separated words as the first (in particular double), the
estimated duration of the second is not smaller — even through the
binary64 evaluation, since correct rounding is monotone. -/
theorem estimate_duration_monotone (s1 s2 : Script)
    (h : wordCount s1.full_script ≤ wordCount s2.full_script) :
    estimate_duration s1 ≤ estimate_duration s2 :=
  float_duration_mono _ _ h

/-- Witness for C7 at a four-word and an eight-word script. -/
theorem estimate_duration_monotone_witness :
    estimate_duration scriptSmall ≤ estimate_duration scriptLarger :=
  estimate_duration_monotone scriptSmall scriptLarger (by decide)

/-! ### C6 — the duration formula -/

/-- The exact floor of `(wc / 150) * 60` over the rationals is the
natural-division expression `wc * 60 / 150`. -/
theorem floor_duration_formula (wc : Nat) :
    ⌊((wc : ℚ) / 150) * 60⌋₊ = wc * 60 / 150 := by
  rw [div_mul_eq_mul_div]
  rw [show ((wc : ℚ) * 60) = ((wc * 60 : Nat) : ℚ) by push_cast; ring]
  rw [show ((150 : ℚ)) = ((150 : Nat) : ℚ) by norm_num]
  rw [Nat.floor_div_nat, Nat.floor_natCast]

/-- C6 counterexample: at the 615-word script the code returns 245
(`int` of the binary64 value `245.99999999999997`), while the claimed
exact `floor((wc / 150) * 60)` is 246 — so "exactly floor" fails at a
realistic word count. -/
theorem estimate_duration_not_exact_floor :
    estimate_duration badScript = 245 ∧
    ⌊((wordCount badScript.full_script : ℚ) / 150) * 60⌋₊ = 246 := by
  have hwc : wordCount badScript.full_script = 615 := by decide
  constructor
  · show float_duration (wordCount badScript.full_script) = 245
    rw [hwc]
    decide
  · rw [hwc, floor_duration_formula]

/-- C6 amended: `estimate_duration` returns the truncation of the
binary64 evaluation of `(wc / 150) * 60`; for every script of fewer
than 615 words this equals the exact `floor((wc / 150) * 60)`, and 615
is the first word count where the two differ. -/
theorem estimate_duration_floor_below_615 (s : Script)
    (h : wordCount s.full_script < 615) :
    estimate_duration s = ⌊((wordCount s.full_script : ℚ) / 150) * 60⌋₊ := by
  rw [floor_duration_formula]
  have key : ∀ w, w < 615 → float_duration w = w * 60 / 150 := by decide
  exact key _ h

/-- Witness for C6's amended statement at a four-word script. -/
theorem estimate_duration_floor_below_615_witness :
    estimate_duration scriptSmall =
      ⌊((wordCount scriptSmall.full_script : ℚ) / 150) * 60⌋₊ :=
  estimate_duration_floor_below_615 scriptSmall (by decide)
